import Mathlib

/-!
Verification development for the procedural-geometry generation core of the
portfolio repository: the superquadric surface evaluator
(`rd_view/assign4/superQuadrics.cc`), the fractal terrain synthesizer
(diamond-square, `FractalTerrain`), and the two neutron transport generators
(`static_neutron_scene_generator.cc` and `dynamic_neutron_scene_generator.cc`).

Modelling conventions:
* C++ `float`/`double` values are embedded as real numbers (`ℝ`); numeric
  literals that the programs store exactly (probabilities, radii, thresholds)
  are carried as rationals (`ℚ`) and cast into `ℝ` where the code mixes them
  with transcendental quantities (`exp`, `sqrt`, `cos`, ...).
* Every pseudo-random draw of `uniform_real_distribution<float>` is a rational
  in [0,1] supplied by an explicit stream `u : ℕ → ℚ`, consumed in program
  order; `normal_distribution<double>` draws come from an explicit oracle.
* The hardware entropy source `std::random_device` is modelled as an explicit
  `entropy : ℕ` input of the constructions that consult it.
-/

namespace Portfolio

/-- 3D vector, the embedding of `float[3]` position/direction arrays. -/
abbrev V3 := ℝ × ℝ × ℝ

/-- Componentwise sum used throughout (`a + b`). -/
def vadd (a b : V3) : V3 := (a.1 + b.1, a.2.1 + b.2.1, a.2.2 + b.2.2)

/-- Sum of squared components, the quantity the C++ code passes to `sqrt`
when it computes a vector length or a distance from the origin. -/
def sumSq (v : V3) : ℝ := v.1 * v.1 + v.2.1 * v.2.1 + v.2.2 * v.2.2

/-- The length computation `sqrt(v[0]*v[0]+v[1]*v[1]+v[2]*v[2])`. -/
noncomputable def vlen (v : V3) : ℝ := Real.sqrt (sumSq v)

/-- Unconditional renormalization `v[i] /= length` as written in both neutron
generators: there is no guard branch around the division in the source. -/
noncomputable def normalize3 (v : V3) : V3 :=
  (v.1 / vlen v, v.2.1 / vlen v, v.2.2 / vlen v)

/-- `RandomGenerator::randomDirection` / the spherical-coordinate direction
sampling: `phi = u*2π`, `costheta = 2u-1`, `sintheta = sqrt(1-costheta²)`,
direction `(sinθ cosφ, sinθ sinφ, cosθ)`.  Consumes draws `k` and `k+1`. -/
noncomputable def randomDirection (u : ℕ → ℚ) (k : ℕ) : V3 :=
  let phi : ℝ := (u k : ℝ) * (2 * Real.pi)
  let costheta : ℝ := 2 * (u (k+1) : ℝ) - 1
  let sintheta : ℝ := Real.sqrt (1 - costheta * costheta)
  (sintheta * Real.cos phi, sintheta * Real.sin phi, costheta)

namespace DynamicSim

/-! Embedding of `rd_view/assign4/dynamic_neutron_scene_generator.cc`. -/

/-- Global `int num_neutrons = 250`. -/
def num_neutrons : ℕ := 250

/-- Global `float max_lifetime = 100.0f`. -/
def max_lifetime : ℚ := 100

/-- Global `float absorption_probability = 0.1f`. -/
def absorption_probability : ℚ := 1/10

/-- Global `float fission_probability = 0.15f`. -/
def fission_probability : ℚ := 3/20

/-- Global `float mean_free_path = 2.0f`. -/
def mean_free_path : ℚ := 2

/-- Global `float source_radius = 0.5f`. -/
def source_radius : ℚ := 1/2

/-- Global `float max_distance = 10.0f`. -/
def max_distance : ℚ := 10

/-- Global `float timestep = 0.5f`. -/
def timestep : ℚ := 1/2

/-- `GROUP_ENERGIES[3] = {10.0f, 5.0f, 1.0f}` indexed by energy group. -/
def GROUP_ENERGIES : ℕ → ℚ := fun g => [(10 : ℚ), 5, 1].getD g 0

/-- `SCATTERING_PROBABILITIES[3][3]`: row = current group, column = target. -/
def SCATTERING_PROBABILITIES : ℕ → ℕ → ℚ := fun i j =>
  ([[(1:ℚ)/2, 2/5, 1/10], [0, 3/5, 2/5], [0, 0, 1]].getD i []).getD j 0

/-- The energy-group selection loop of `Neutron::update` (the
`cumulative_prob` thresholding over `SCATTERING_PROBABILITIES[energy_group]`,
unrolled for `NUM_ENERGY_GROUPS = 3`): the first target group whose cumulative
probability exceeds the draw wins; if no threshold is crossed the group is
left unchanged (the loop body never assigns). -/
def selectGroup (g : ℕ) (r : ℚ) : ℕ :=
  if r < SCATTERING_PROBABILITIES g 0 then 0
  else if r < SCATTERING_PROBABILITIES g 0 + SCATTERING_PROBABILITIES g 1 then 1
  else if r < SCATTERING_PROBABILITIES g 0 + SCATTERING_PROBABILITIES g 1
              + SCATTERING_PROBABILITIES g 2 then 2
  else g

/-- The `Neutron` class state: position, direction (`velocity`), energy group
(0 fast, 1 epithermal, 2 thermal), lifetime, active flag. -/
structure Neutron where
  position : V3
  velocity : V3
  energy_group : ℕ
  lifetime : ℝ
  active : Bool

/-- The default constructor `Neutron()`: inactive at the origin, group 0. -/
def defaultNeutron : Neutron :=
  { position := (0, 0, 0), velocity := (0, 0, 0)
    energy_group := 0, lifetime := 0, active := false }

/-- `FissionEvent`: position and creation time of a fission, kept for
visualization. -/
structure FissionEvent where
  position : V3
  time : ℝ

/-- `fission_events.push_back(...)` followed by
`if (fission_events.size() > 20) fission_events.pop_front()`. -/
def pushEvent (events : List FissionEvent) (e : FissionEvent) : List FissionEvent :=
  let es := events ++ [e]
  if 20 < es.length then es.tail else es

/-- `mean_free_path * (1.0f + GROUP_ENERGIES[energy_group] * 0.1f)`. -/
def meanFreePathEnergy (g : ℕ) : ℚ :=
  mean_free_path * (1 + GROUP_ENERGIES g * (1/10))

/-- `interaction_prob = 1 - exp(-dt / mean_free_path_energy)`. -/
noncomputable def interactionProbability (g : ℕ) (dt : ℝ) : ℝ :=
  1 - Real.exp (-dt / (meanFreePathEnergy g : ℝ))

/-- `speed = sqrt(GROUP_ENERGIES[energy_group]) * 2.0f`. -/
noncomputable def speed (g : ℕ) : ℝ := Real.sqrt ((GROUP_ENERGIES g : ℝ)) * 2

/-- The position advance `position[i] += velocity[i] * speed * dt`. -/
noncomputable def movedPos (dt : ℝ) (n : Neutron) : V3 :=
  (n.position.1 + n.velocity.1 * speed n.energy_group * dt,
   n.position.2.1 + n.velocity.2.1 * speed n.energy_group * dt,
   n.position.2.2 + n.velocity.2.2 * speed n.energy_group * dt)

/-- The movement tail of `Neutron::update` (lines after the interaction
block): advance the position, then deactivate if the distance from the origin
exceeds `max_distance`. -/
noncomputable def moveNeutron (dt : ℝ) (n : Neutron) : Neutron :=
  if (max_distance : ℝ) < vlen (movedPos dt n)
  then { n with position := movedPos dt n, active := false }
  else { n with position := movedPos dt n }

/-- Result of one `Neutron::update` call: the updated neutron, the (possibly
extended) fission-event deque, and the fission spawn request (`position`,
`new_neutrons`) that the in-place pool loop would then satisfy by
reinitializing inactive slots. -/
structure UpdateResult where
  neutron : Neutron
  events : List FissionEvent
  spawnAt : Option (V3 × ℕ)

/-- `Neutron::update(dt, neutrons, fission_events, simulation_time, gen)`.
Draw consumption from index `k`: the interaction test (`k`), the outcome draw
`r` (`k+1`); in the scatter branch `randomDirection` (`k+2`,`k+3`) then
`scatter_r` (`k+4`); in the fission branch the 2-vs-3 draw (`k+2`).  The
scatter branch does not return: it falls through to the movement tail. -/
noncomputable def updateNeutron (dt simulation_time : ℝ) (n : Neutron)
    (events : List FissionEvent) (u : ℕ → ℚ) (k : ℕ) : UpdateResult :=
  if n.active = false then ⟨n, events, none⟩ else
  if (max_lifetime : ℝ) < n.lifetime + dt then
    ⟨{ n with lifetime := n.lifetime + dt, active := false }, events, none⟩
  else
  if (u k : ℝ) < interactionProbability n.energy_group dt then
    if u (k+1) < 1 - absorption_probability - fission_probability then
      ⟨moveNeutron dt
        { n with lifetime := n.lifetime + dt,
                 velocity := randomDirection u (k+2),
                 energy_group := selectGroup n.energy_group (u (k+4)) },
       events, none⟩
    else if u (k+1) < 1 - fission_probability then
      ⟨{ n with lifetime := n.lifetime + dt, active := false }, events, none⟩
    else
      ⟨{ n with lifetime := n.lifetime + dt, active := false },
       pushEvent events ⟨n.position, simulation_time⟩,
       some (n.position, if u (k+2) < 1/2 then 3 else 2)⟩
  else
    ⟨moveNeutron dt { n with lifetime := n.lifetime + dt }, events, none⟩

/-- `Neutron::init`: uniform position inside the source sphere (cube-root
radius scaling) and a random unit direction; group 0, lifetime 0, active.
Consumes five draws starting at `k`. -/
noncomputable def initNeutron (u : ℕ → ℚ) (k : ℕ) : Neutron :=
  let phi : ℝ := (u k : ℝ) * (2 * Real.pi)
  let costheta : ℝ := 2 * (u (k+1) : ℝ) - 1
  let sintheta : ℝ := Real.sqrt (1 - costheta * costheta)
  let r : ℝ := (source_radius : ℝ) * Real.rpow (u (k+2) : ℝ) (1/3)
  { position := (r * sintheta * Real.cos phi, r * sintheta * Real.sin phi, r * costheta)
    velocity := randomDirection u (k+3)
    energy_group := 0, lifetime := 0, active := true }

/-- The `NeutronSimulation` constructor: `neutrons.resize(num_neutrons)` fills
the pool with default (inactive) neutrons, then the first
`num_neutrons / 3` slots are initialized from the source, each `init`
consuming five draws. -/
noncomputable def mkPool (u : ℕ → ℚ) : List Neutron :=
  (List.range num_neutrons).map fun i =>
    if i < num_neutrons / 3 then initNeutron u (5 * i) else defaultNeutron

/-- Simulation state: particle pool, fission-event deque, simulated time. -/
structure SimState where
  pool : List Neutron
  events : List FissionEvent
  time : ℝ

/-- `NeutronSimulation()` as a function of the draw stream: initial pool,
empty event deque, `simulation_time = 0`. -/
noncomputable def mkSimulation (u : ℕ → ℚ) : SimState := ⟨mkPool u, [], 0⟩

end DynamicSim

namespace StaticSim

/-! Embedding of `rd_view/assign4/static_neutron_scene_generator.cc`. -/

/-- `const int POINTS_PER_TRACK = 20`. -/
def POINTS_PER_TRACK : ℕ := 20

/-- `const float MAX_TRACK_LENGTH = 15.0f`. -/
def MAX_TRACK_LENGTH : ℚ := 15

/-- `const float SOURCE_RADIUS = 0.5f`. -/
def SOURCE_RADIUS : ℚ := 1/2

/-- `const float CORE_RADIUS = 3.0f`. -/
def CORE_RADIUS : ℚ := 3

/-- `const float REFLECTOR_RADIUS = 6.0f`. -/
def REFLECTOR_RADIUS : ℚ := 6

/-- `const float CURVATURE_FACTOR = 0.4f`. -/
def CURVATURE_FACTOR : ℚ := 2/5

/-- `const float CORE_ABSORPTION = 0.1f`. -/
def CORE_ABSORPTION : ℚ := 1/10

/-- `const float REFLECTOR_ABSORPTION = 0.4f`. -/
def REFLECTOR_ABSORPTION : ℚ := 2/5

/-- `const float OUTER_ABSORPTION = 0.8f`. -/
def OUTER_ABSORPTION : ℚ := 4/5

/-- `CORE_COLOR = {1.0f, 0.3f, 0.3f}`. -/
noncomputable def CORE_COLOR : V3 := (1, 3/10, 3/10)

/-- `REFLECTOR_COLOR = {0.3f, 0.7f, 1.0f}`. -/
noncomputable def REFLECTOR_COLOR : V3 := (3/10, 7/10, 1)

/-- `OUTER_COLOR = {1.0f, 1.0f, 0.3f}`. -/
noncomputable def OUTER_COLOR : V3 := (1, 1, 3/10)

/-- `struct TrackPoint`: position, color, active flag. -/
structure TrackPoint where
  position : V3
  color : V3
  active : Bool

/-- A `TrackPoint` in the state the constructor leaves untouched points in:
only `active = false` is meaningful (position and color are never read for
inactive points; the C++ leaves them indeterminate, modelled as zero). -/
noncomputable def inactivePoint : TrackPoint := ⟨(0, 0, 0), (0, 0, 0), false⟩

/-- Region colour selection by distance from the origin (the
`dist < CORE_RADIUS` / `dist < REFLECTOR_RADIUS` ladder). -/
noncomputable def regionColor (dist : ℝ) : V3 :=
  if dist < (CORE_RADIUS : ℝ) then CORE_COLOR
  else if dist < (REFLECTOR_RADIUS : ℝ) then REFLECTOR_COLOR
  else OUTER_COLOR

/-- Region absorption probability by distance from the origin. -/
noncomputable def regionAbsorption (dist : ℝ) : ℚ :=
  if dist < (CORE_RADIUS : ℝ) then CORE_ABSORPTION
  else if dist < (REFLECTOR_RADIUS : ℝ) then REFLECTOR_ABSORPTION
  else OUTER_ABSORPTION

/-- One scattering perturbation `(u*2 - 1) * CURVATURE_FACTOR` per component,
consuming draws `k`, `k+1`, `k+2`. -/
noncomputable def perturb (u : ℕ → ℚ) (k : ℕ) : V3 :=
  (((u k : ℝ) * 2 - 1) * (CURVATURE_FACTOR : ℝ),
   ((u (k+1) : ℝ) * 2 - 1) * (CURVATURE_FACTOR : ℝ),
   ((u (k+2) : ℝ) * 2 - 1) * (CURVATURE_FACTOR : ℝ))

/-- `step_length = MAX_TRACK_LENGTH / POINTS_PER_TRACK`. -/
def step_length : ℚ := MAX_TRACK_LENGTH / POINTS_PER_TRACK

/-- The loop body of `NeutronTrack::generate` for indices `i = 1 ..
POINTS_PER_TRACK-1`, with `remaining` points still to produce.  Each active
iteration consumes four draws (three perturbation components and the
absorption test); the `continue` branch after a dead predecessor consumes
none.  On absorption the current point stays active and all later points are
set inactive (the `break` after the fill loop). -/
noncomputable def genFrom (u : ℕ → ℚ) :
    (remaining : ℕ) → (k : ℕ) → (pos dir : V3) → (prevActive : Bool) → List TrackPoint
  | 0, _, _, _, _ => []
  | m + 1, k, pos, dir, prevActive =>
    if prevActive = false then inactivePoint :: genFrom u m k pos dir false
    else
      let dirN := normalize3 (vadd dir (perturb u k))
      let pos' : V3 := (pos.1 + dirN.1 * (step_length : ℝ),
                        pos.2.1 + dirN.2.1 * (step_length : ℝ),
                        pos.2.2 + dirN.2.2 * (step_length : ℝ))
      let dist := vlen pos'
      if u (k+3) < regionAbsorption dist then
        ⟨pos', regionColor dist, true⟩ :: List.replicate m inactivePoint
      else
        ⟨pos', regionColor dist, true⟩ :: genFrom u m (k+4) pos' dirN true

/-- `NeutronTrack::generate()`: sample the start inside the source sphere
(draws 0-2, with the direction reusing the same spherical angles), give the
direction a one-off `±0.25` perturbation (draws 3-5), renormalize, emit the
always-active first point, then run the stepping loop for the remaining 19
points starting at draw 6. -/
noncomputable def generate (u : ℕ → ℚ) : List TrackPoint :=
  let phi : ℝ := (u 0 : ℝ) * (2 * Real.pi)
  let costheta : ℝ := 2 * (u 1 : ℝ) - 1
  let sintheta : ℝ := Real.sqrt (1 - costheta * costheta)
  let r : ℝ := (SOURCE_RADIUS : ℝ) * Real.rpow (u 2 : ℝ) (1/3)
  let pos : V3 := (r * sintheta * Real.cos phi, r * sintheta * Real.sin phi, r * costheta)
  let dir0 : V3 := (sintheta * Real.cos phi, sintheta * Real.sin phi, costheta)
  let dir1 : V3 := vadd dir0
    (((u 3 : ℝ) - 1/2) * (1/2), ((u 4 : ℝ) - 1/2) * (1/2), ((u 5 : ℝ) - 1/2) * (1/2))
  let dirN := normalize3 dir1
  ⟨pos, regionColor (vlen pos), true⟩ :: genFrom u (POINTS_PER_TRACK - 1) 6 pos dirN true

end StaticSim

namespace Terrain

/-! Embedding of the `FractalTerrain` class (midpoint-displacement terrain
generator and colour mapping). -/

/-- `int size = (1 << n) + 1`. -/
def gridSize (n : ℕ) : ℕ := (1 <<< n) + 1

/-- The height grid, as a total map from indices to heights; cells outside
`[0, 2^n]²` are never read or written by the algorithm. -/
abbrev Grid := ℕ → ℕ → ℝ

/-- Single-cell write `grid[x][y] = v`. -/
def gset (g : Grid) (x y : ℕ) (v : ℝ) : Grid :=
  fun a b => if a = x ∧ b = y then v else g a b

/-- The seeded Gaussian source: `rng` state after `InitGauss(seed)` plus the
number of `Gauss()` calls made so far.  The oracle `go` gives the value of the
`idx`-th `normal_distribution` draw of a Mersenne Twister seeded with
`seed` (fixed library semantics, identical across invocations). -/
structure GaussState where
  seed : ℤ
  idx : ℕ

/-- `InitGauss(seed)`: reseed the engine, discarding any previous state. -/
def initGauss (seed : ℤ) : GaussState := ⟨seed, 0⟩

/-- One `Gauss()` call. -/
def gaussDraw (go : ℤ → ℕ → ℝ) (st : GaussState) : ℝ × GaussState :=
  (go st.seed st.idx, ⟨st.seed, st.idx + 1⟩)

/-- Loop index list for `for (x = start; x < bound; x += step)`. -/
def stepIdxLt (start step bound : ℕ) : List ℕ :=
  (List.range (if bound ≤ start then 0 else (bound - start - 1) / step + 1)).map
    fun i => start + i * step

/-- Loop index list for `for (x = start; x <= last; x += step)`. -/
def stepIdxLe (start step last : ℕ) : List ℕ :=
  (List.range (if last < start then 0 else (last - start) / step + 1)).map
    fun i => start + i * step

/-- Fold a grid/rng-updating body over a two-level `x`/`y` loop nest. -/
def loop2 (xs ys : List ℕ) (f : Grid × GaussState → ℕ → ℕ → Grid × GaussState)
    (a : Grid × GaussState) : Grid × GaussState :=
  xs.foldl (fun acc x => ys.foldl (fun acc2 y => f acc2 x y) acc) a

/-- `f3`: three-point average plus `delta * Gauss()`. -/
noncomputable def f3 (go : ℤ → ℕ → ℝ) (delta x0 x1 x2 : ℝ) (st : GaussState) : ℝ × GaussState :=
  let (g, st') := gaussDraw go st
  ((x0 + x1 + x2) / 3 + delta * g, st')

/-- `f4`: four-point average plus `delta * Gauss()`. -/
noncomputable def f4 (go : ℤ → ℕ → ℝ) (delta x0 x1 x2 x3 : ℝ) (st : GaussState) : ℝ × GaussState :=
  let (g, st') := gaussDraw go st
  ((x0 + x1 + x2 + x3) / 4 + delta * g, st')

/-- Per-stage loop state of `generateTerrain`: current displacement `delta`,
step sizes `D` and `d`, the grid, and the rng state. -/
structure StageState where
  delta : ℝ
  Ds : ℕ
  ds : ℕ
  grid : Grid
  rng : GaussState

/-- One iteration of the main `for (stage = 1; stage <= n; stage++)` loop of
`generateTerrain`, with `N = 2^n` and Hurst exponent `H`. -/
noncomputable def stageBody (go : ℤ → ℕ → ℝ) (H : ℝ) (N : ℕ)
    (s : StageState) (_stage : ℕ) : StageState :=
  let D := s.Ds
  let d := s.ds
  let delta1 := s.delta * Real.rpow (1/2) ((1/2) * H)
  -- diamond step: centers of squares
  let a1 := loop2 (stepIdxLt d D N) (stepIdxLt d D N)
    (fun acc x y =>
      let (v, st') := f4 go delta1 (acc.1 (x+d) (y+d)) (acc.1 (x+d) (y-d))
        (acc.1 (x-d) (y+d)) (acc.1 (x-d) (y-d)) acc.2
      (gset acc.1 x y v, st'))
    (s.grid, s.rng)
  -- re-perturb existing coarse-lattice points
  let a2 := loop2 (stepIdxLe 0 D N) (stepIdxLe 0 D N)
    (fun acc x y =>
      let (g, st') := gaussDraw go acc.2
      (gset acc.1 x y (acc.1 x y + delta1 * g), st'))
    a1
  let delta2 := delta1 * Real.rpow (1/2) ((1/2) * H)
  -- square step: boundary edge midpoints (three neighbours)
  let a3 := (stepIdxLt d D N).foldl
    (fun acc x =>
      let (v1, s1) := f3 go delta2 (acc.1 (x+d) 0) (acc.1 (x-d) 0) (acc.1 x d) acc.2
      let b1 := (gset acc.1 x 0 v1, s1)
      let (v2, s2) := f3 go delta2 (b1.1 (x+d) N) (b1.1 (x-d) N) (b1.1 x (N-d)) b1.2
      let b2 := (gset b1.1 x N v2, s2)
      let (v3, s3) := f3 go delta2 (b2.1 0 (x+d)) (b2.1 0 (x-d)) (b2.1 d x) b2.2
      let b3 := (gset b2.1 0 x v3, s3)
      let (v4, s4) := f3 go delta2 (b3.1 N (x+d)) (b3.1 N (x-d)) (b3.1 (N-d) x) b3.2
      (gset b3.1 N x v4, s4))
    a2
  -- square step: interior edge midpoints, first orientation
  let a4 := loop2 (stepIdxLt d D N) (stepIdxLt D D N)
    (fun acc x y =>
      let (v, st') := f4 go delta2 (acc.1 x (y+d)) (acc.1 x (y-d))
        (acc.1 (x+d) y) (acc.1 (x-d) y) acc.2
      (gset acc.1 x y v, st'))
    a3
  -- square step: interior edge midpoints, second orientation
  let a5 := loop2 (stepIdxLt D D N) (stepIdxLt d D N)
    (fun acc x y =>
      let (v, st') := f4 go delta2 (acc.1 x (y+d)) (acc.1 x (y-d))
        (acc.1 (x+d) y) (acc.1 (x-d) y) acc.2
      (gset acc.1 x y v, st'))
    a4
  -- re-perturb coarse-lattice points again
  let a6 := loop2 (stepIdxLe 0 D N) (stepIdxLe 0 D N)
    (fun acc x y =>
      let (g, st') := gaussDraw go acc.2
      (gset acc.1 x y (acc.1 x y + delta2 * g), st'))
    a5
  -- re-perturb diamond centers
  let a7 := loop2 (stepIdxLt d D N) (stepIdxLt d D N)
    (fun acc x y =>
      let (g, st') := gaussDraw go acc.2
      (gset acc.1 x y (acc.1 x y + delta2 * g), st'))
    a6
  ⟨delta2, D / 2, d / 2, a7.1, a7.2⟩

/-- `FractalTerrain::generateTerrain()` run on an incoming grid and rng
state: reseed the rng with `seed` (discarding `rng0`), seed the four corners,
then run the staged refinement.  Returns the final grid and rng state. -/
noncomputable def generateTerrain (go : ℤ → ℕ → ℝ) (n : ℕ) (Dv : ℝ) (seed : ℤ)
    (sigma : ℝ) (rng0 : GaussState) (grid0 : Grid) : Grid × GaussState :=
  let N := 1 <<< n
  let H := 3 - Dv
  let s0 := initGauss seed
  let delta := sigma
  let (r1, s1) := gaussDraw go s0
  let g1 := gset grid0 0 0 (delta * r1)
  let (r2, s2) := gaussDraw go s1
  let g2 := gset g1 0 N (delta * r2)
  let (r3, s3) := gaussDraw go s2
  let g3 := gset g2 N 0 (delta * r3)
  let (r4, s4) := gaussDraw go s3
  let g4 := gset g3 N N (delta * r4)
  let final := (List.range n).foldl (stageBody go H N) ⟨delta, N, N / 2, g4, s4⟩
  (final.grid, final.rng)

/-- The `FractalTerrain` constructor: zero-initialized grid of side
`(1 << n) + 1`, then `generateTerrain()`.  `rng0` is the state the
default-constructed member engine happens to hold before seeding. -/
noncomputable def make (go : ℤ → ℕ → ℝ) (n : ℕ) (Dv : ℝ) (seed : ℤ) (sigma : ℝ)
    (rng0 : GaussState) : Grid :=
  (generateTerrain go n Dv seed sigma rng0 (fun _ _ => 0)).1

/-- The finite view of a height grid that `getColor`'s min/max scan walks
(`for (const auto& row : grid) for (const auto& val : row)`). -/
abbrev GridData := List (List ℝ)

/-- The min/max scan of `getColor`: both extrema start at `grid[0][0]` and
every value is folded through `std::min`/`std::max`. -/
def scanMinMax (g : GridData) : ℝ × ℝ :=
  let first := (g.headD []).headD 0
  g.foldl (fun mm row => row.foldl (fun mm2 v => (min mm2.1 v, max mm2.2 v)) mm)
    (first, first)

/-- The function-local `static` variables of `FractalTerrain::getColor`:
`minHeight`, `maxHeight`, `heightsCalculated`.  They live for the whole
process, not per terrain object. -/
structure ColorCache where
  minHeight : ℝ
  maxHeight : ℝ
  heightsCalculated : Bool

/-- The static initializers: `minHeight = 0.0, maxHeight = 0.0,
heightsCalculated = false`. -/
def initialColorCache : ColorCache := ⟨0, 0, false⟩

/-- `lerp(t, a, b) = a + t * (b - a)`. -/
def lerp (t a b : ℝ) : ℝ := a + t * (b - a)

/-- `colorLerp`: componentwise linear interpolation of two colours. -/
def colorLerp (t : ℝ) (a b : V3) : V3 :=
  (lerp t a.1 b.1, lerp t a.2.1 b.2.1, lerp t a.2.2 b.2.2)

/-- The terrain band colours of `getColor`. -/
noncomputable def deepWaterColor : V3 := (0, 0, 1/2)

/-- Shallow-water band colour. -/
noncomputable def shallowWaterColor : V3 := (0, 0, 4/5)

/-- Sand band colour. -/
noncomputable def sandColor : V3 := (76/100, 7/10, 1/2)

/-- Grass band colour. -/
noncomputable def grassColor : V3 := (0, 3/5, 0)

/-- Mountain band colour. -/
noncomputable def mountainColor : V3 := (1/2, 35/100, 1/20)

/-- Snow band colour. -/
noncomputable def snowColor : V3 := (1, 1, 1)

/-- The if-else colour ladder of `getColor` on the normalized height, with
thresholds 0.20 / 0.30 / 0.40 / 0.60 / 0.80 and blend width 0.03. -/
noncomputable def colorLadder (t : ℝ) : V3 :=
  if t < 20/100 - 3/100 then deepWaterColor
  else if t < 20/100 + 3/100 then
    colorLerp ((t - (20/100 - 3/100)) / (2 * (3/100))) deepWaterColor shallowWaterColor
  else if t < 30/100 - 3/100 then shallowWaterColor
  else if t < 30/100 + 3/100 then
    colorLerp ((t - (30/100 - 3/100)) / (2 * (3/100))) shallowWaterColor sandColor
  else if t < 40/100 - 3/100 then sandColor
  else if t < 40/100 + 3/100 then
    colorLerp ((t - (40/100 - 3/100)) / (2 * (3/100))) sandColor grassColor
  else if t < 60/100 - 3/100 then grassColor
  else if t < 60/100 + 3/100 then
    colorLerp ((t - (60/100 - 3/100)) / (2 * (3/100))) grassColor mountainColor
  else if t < 80/100 - 3/100 then mountainColor
  else if t < 80/100 + 3/100 then
    colorLerp ((t - (80/100 - 3/100)) / (2 * (3/100))) mountainColor snowColor
  else snowColor

/-- `FractalTerrain::getColor(height)` with the process-wide static cache
made explicit: if `heightsCalculated` is still false the current object's
grid is scanned once and the result stored; otherwise the cached extrema are
used as they are, whatever grid they came from.  Returns the colour and the
cache state after the call. -/
noncomputable def getColor (grid : GridData) (st : ColorCache) (height : ℝ) :
    V3 × ColorCache :=
  let st' := if st.heightsCalculated = false
    then ⟨(scanMinMax grid).1, (scanMinMax grid).2, true⟩
    else st
  (colorLadder ((height - st'.minHeight) / (st'.maxHeight - st'.minHeight)), st')

end Terrain

namespace Engine

/-! The Mersenne Twister seeding used by all three programs
(`std::mt19937`, per the C++ standard's `mersenne_twister_engine` seeding:
`x[0] = seed mod 2^32`, `x[i] = (1812433253 * (x[i-1] xor (x[i-1] >> 30)) + i)
mod 2^32`). -/

/-- Word `i` of the mt19937 state vector right after seeding with `seed`. -/
def mtWord (seed : ℕ) : ℕ → ℕ
  | 0 => seed % 2 ^ 32
  | i + 1 =>
    (1812433253 * (mtWord seed i ^^^ (mtWord seed i >>> 30)) + (i + 1)) % 2 ^ 32

/-- The dynamic generator's `RandomGenerator()` constructor seeds its engine
as `gen(rd())`: the state is a function of the hardware entropy `rd()`, which
is not a caller-supplied parameter (the command line carries only `--frames`,
`--neutrons`, `--time`, `--pnm`). -/
def dynamicEngineState (entropy : ℕ) : ℕ → ℕ := mtWord entropy

/-- The static generator's file-scope `std::mt19937 gen(rd())`: again seeded
from hardware entropy; the program takes no seed (its `main` reads nothing). -/
def staticEngineState (entropy : ℕ) : ℕ → ℕ := mtWord entropy

/-- The terrain generator's engine after `InitGauss(seed)` ran
`rng.seed(seed)`: seeded from the caller-supplied `seed` parameter, with the
hardware entropy nowhere consulted. -/
def terrainEngineState (seed : ℕ) : ℕ → ℕ := mtWord seed

end Engine

namespace SuperQuadrics

/-! Embedding of `rd_view/assign4/superQuadrics.cc` (`REDirect::rd_sqsphere`
and `REDirect::rd_sqtorus`).  The renderer global `n_divisions` is passed as
the explicit parameter `nd`; an emitted polygon is the quadruple of corner
points sent to `poly_pipeline` in order `p00, p10, p11, p01`. -/

/-- A quad emitted to the polygon pipeline: the four corner positions. -/
abbrev Quad := V3 × V3 × V3 × V3

/-- The sign-preserving power `sgn(c) * |c|^e` (`sgn_... * pow(fabs(...), e)`),
where the source computes the sign as `(c >= 0) ? 1.0f : -1.0f`. -/
noncomputable def powTerm (c e : ℝ) : ℝ :=
  (if 0 ≤ c then (1 : ℝ) else -1) * |c| ^ e

/-- The superquadric sphere surface point for grid index `(ui, vi)`:
`theta = ui/nd * thetamax` (degrees to radians), `phi` linearly interpolated
between `phimin` and `phimax` (both in degrees), and the parametric equations
`x = r * powTerm(cosθ, east) * powTerm(cosφ, north)`,
`y = r * powTerm(sinθ, east) * powTerm(cosφ, north)`,
`z = r * powTerm(sinφ, north)`. -/
noncomputable def spherePoint (radius north east phimin phimax thetamax : ℝ)
    (nd ui vi : ℕ) : V3 :=
  let theta := (ui : ℝ) / (nd : ℝ) * thetamax * Real.pi / 180
  let phi := (phimin + (vi : ℝ) / (nd : ℝ) * (phimax - phimin)) * Real.pi / 180
  (radius * powTerm (Real.cos theta) east * powTerm (Real.cos phi) north,
   radius * powTerm (Real.sin theta) east * powTerm (Real.cos phi) north,
   radius * powTerm (Real.sin phi) north)

/-- The grid point `rd_sqsphere` evaluates at `(ui, vi)` after validation:
`zmin`/`zmax` are clamped to `[-radius, radius]` and converted to latitude
degrees through `asin(z/radius) * 180/π`. -/
noncomputable def sqsphereGridPoint (radius north east zmin zmax thetamax : ℚ)
    (nd ui vi : ℕ) : V3 :=
  let zminC : ℚ := max zmin (-radius)
  let zmaxC : ℚ := min zmax radius
  let phimin : ℝ := Real.arcsin ((zminC : ℝ) / (radius : ℝ)) * 180 / Real.pi
  let phimax : ℝ := Real.arcsin ((zmaxC : ℝ) / (radius : ℝ)) * 180 / Real.pi
  spherePoint (radius : ℝ) (north : ℝ) (east : ℝ) phimin phimax (thetamax : ℝ) nd ui vi

/-- The quads emitted by the `rd_sqsphere` render loop: for every
`(ui, vi) ∈ [0, nd) × [0, nd)` the corners `(ui,vi), (ui+1,vi), (ui+1,vi+1),
(ui,vi+1)` in pipeline order. -/
noncomputable def sphereQuads (radius north east zmin zmax thetamax : ℚ)
    (nd : ℕ) : List Quad :=
  (List.range nd).flatMap fun ui => (List.range nd).map fun vi =>
    (sqsphereGridPoint radius north east zmin zmax thetamax nd ui vi,
     sqsphereGridPoint radius north east zmin zmax thetamax nd (ui+1) vi,
     sqsphereGridPoint radius north east zmin zmax thetamax nd (ui+1) (vi+1),
     sqsphereGridPoint radius north east zmin zmax thetamax nd ui (vi+1))

/-- `REDirect::rd_sqsphere`: the validation ladder in source order
(`zmin > zmax`, `radius <= 0`, `thetamax <= 0 || thetamax > 360`,
`zmin == zmax`) each returns `-1` before anything reaches the polygon
pipeline; on success the full quad list is emitted and `0` returned. -/
noncomputable def rd_sqsphere (radius north east zmin zmax thetamax : ℚ)
    (nd : ℕ) : ℤ × List Quad :=
  if zmax < zmin then (-1, [])
  else if radius ≤ 0 then (-1, [])
  else if thetamax ≤ 0 ∨ 360 < thetamax then (-1, [])
  else if zmin = zmax then (-1, [])
  else (0, sphereQuads radius north east zmin zmax thetamax nd)

/-- The superquadric torus surface point for grid index `(ui, vi)`, with
`phimin`/`phimax` already clamped to `[-180, 180]` degrees:
`x = powTerm(cosθ, east) * (radius1 + radius2 * powTerm(cosφ, north))`,
`y = powTerm(sinθ, east) * (radius1 + radius2 * powTerm(cosφ, north))`,
`z = radius2 * powTerm(sinφ, north)`. -/
noncomputable def torusPoint (radius1 radius2 north east phimin phimax thetamax : ℝ)
    (nd ui vi : ℕ) : V3 :=
  let theta := (ui : ℝ) / (nd : ℝ) * thetamax * Real.pi / 180
  let phi := (phimin + (vi : ℝ) / (nd : ℝ) * (phimax - phimin)) * Real.pi / 180
  (powTerm (Real.cos theta) east * (radius1 + radius2 * powTerm (Real.cos phi) north),
   powTerm (Real.sin theta) east * (radius1 + radius2 * powTerm (Real.cos phi) north),
   radius2 * powTerm (Real.sin phi) north)

/-- The quads emitted by the `rd_sqtorus` render loop. -/
noncomputable def torusQuads (radius1 radius2 north east phimin phimax thetamax : ℚ)
    (nd : ℕ) : List Quad :=
  let pm : ℚ := max phimin (-180)
  let pM : ℚ := min phimax 180
  let P := fun ui vi => torusPoint (radius1 : ℝ) (radius2 : ℝ) (north : ℝ) (east : ℝ)
    (pm : ℝ) (pM : ℝ) (thetamax : ℝ) nd ui vi
  (List.range nd).flatMap fun ui => (List.range nd).map fun vi =>
    (P ui vi, P (ui+1) vi, P (ui+1) (vi+1), P ui (vi+1))

/-- `REDirect::rd_sqtorus`: validation ladder in source order
(`radius1 <= 0 || radius2 <= 0`, `thetamax <= 0 || thetamax > 360`,
`phimin >= phimax`), then clamping of the phi range and emission. -/
noncomputable def rd_sqtorus (radius1 radius2 north east phimin phimax thetamax : ℚ)
    (nd : ℕ) : ℤ × List Quad :=
  if radius1 ≤ 0 ∨ radius2 ≤ 0 then (-1, [])
  else if thetamax ≤ 0 ∨ 360 < thetamax then (-1, [])
  else if phimax ≤ phimin then (-1, [])
  else (0, torusQuads radius1 radius2 north east phimin phimax thetamax nd)

end SuperQuadrics

/-! ## Claims -/

section Claims

open DynamicSim StaticSim Terrain Engine SuperQuadrics

/-- C7: in a scattering event the energy group drawn from
`SCATTERING_PROBABILITIES` by cumulative thresholding is never a
higher-energy (lower-index) group than the current one, and a thermal
neutron (group 2) always stays thermal.  Group indices order energy
decreasingly, so `g ≤ selectGroup g r` says the energy never increases. -/
theorem c7_scattering_non_increasing (g : ℕ) (r : ℚ) (hg : g < 3) (hr : 0 ≤ r) :
    g ≤ selectGroup g r ∧ selectGroup 2 r = 2 := by
  constructor
  · interval_cases g
    · exact Nat.zero_le _
    · simp only [selectGroup, SCATTERING_PROBABILITIES]
      norm_num
      split_ifs <;> first | rfl | omega | linarith
    · simp only [selectGroup, SCATTERING_PROBABILITIES]
      norm_num
      split_ifs <;> first | rfl | omega | linarith
  · simp only [selectGroup, SCATTERING_PROBABILITIES]
    norm_num
    split_ifs <;> first | rfl | omega | linarith

/-- Numeric helper: one half is a valid (nonnegative) uniform draw. -/
theorem half_draw_nonneg : (0 : ℚ) ≤ 1/2 := by norm_num

/-- C7 witness: a thermal neutron with scatter draw 1/2 stays thermal. -/
theorem c7_scattering_non_increasing_witness :
    2 < 3 ∧ (0 : ℚ) ≤ 1/2 ∧
      (2 ≤ selectGroup 2 (1/2) ∧ selectGroup 2 (1/2) = 2) :=
  ⟨Nat.lt_succ_self 2, half_draw_nonneg,
    c7_scattering_non_increasing 2 (1/2) (Nat.lt_succ_self 2) half_draw_nonneg⟩

/-- C8: every invalid parameter set of the claim's enumeration makes
`rd_sqsphere` / `rd_sqtorus` return `-1` with an empty emission list — no
grid point or polygon reaches the pipeline. -/
theorem c8_invalid_params_rejected
    (radius north east zmin zmax thetamax : ℚ) (nds : ℕ)
    (r1 r2 n2 e2 pmin pmax tm2 : ℚ) (ndt : ℕ)
    (hs : radius ≤ 0 ∨ zmax < zmin ∨ zmin = zmax ∨ thetamax ≤ 0 ∨ 360 < thetamax)
    (ht : r1 ≤ 0 ∨ r2 ≤ 0 ∨ pmax ≤ pmin ∨ tm2 ≤ 0 ∨ 360 < tm2) :
    rd_sqsphere radius north east zmin zmax thetamax nds = (-1, []) ∧
    rd_sqtorus r1 r2 n2 e2 pmin pmax tm2 ndt = (-1, []) := by
  constructor
  · unfold rd_sqsphere
    split_ifs with h1 h2 h3 h4
    · rfl
    · rfl
    · rfl
    · rfl
    · exfalso
      rcases hs with h | h | h | h | h
      · exact h2 h
      · exact h1 h
      · exact h4 h
      · exact h3 (Or.inl h)
      · exact h3 (Or.inr h)
  · unfold rd_sqtorus
    split_ifs with h1 h2 h3
    · rfl
    · rfl
    · rfl
    · exfalso
      rcases ht with h | h | h | h | h
      · exact h1 (Or.inl h)
      · exact h1 (Or.inr h)
      · exact h3 h
      · exact h2 (Or.inl h)
      · exact h2 (Or.inr h)

/-- C8 witness: a zero-radius sphere and a zero-major-radius torus are both
rejected with `-1` and no output. -/
theorem c8_invalid_params_rejected_witness :
    ((0:ℚ) ≤ 0 ∨ (1:ℚ) < -1 ∨ (-1:ℚ) = 1 ∨ (360:ℚ) ≤ 0 ∨ (360:ℚ) < 360) ∧
    ((0:ℚ) ≤ 0 ∨ (1:ℚ) ≤ 0 ∨ (90:ℚ) ≤ -90 ∨ (360:ℚ) ≤ 0 ∨ (360:ℚ) < 360) ∧
    (rd_sqsphere 0 1 1 (-1) 1 360 4 = (-1, []) ∧
     rd_sqtorus 0 1 1 1 (-90) 90 360 4 = (-1, [])) :=
  ⟨Or.inl (le_refl 0), Or.inl (le_refl 0),
    c8_invalid_params_rejected 0 1 1 (-1) 1 360 4 0 1 1 1 (-90) 90 360 4
      (Or.inl (le_refl 0)) (Or.inl (le_refl 0))⟩

/-- C4: the min/max cache of `getColor` is keyed only on the first call.
After any first call on `grid1` has populated the static cache, a call for a
second grid `grid2` normalizes its height against `grid1`'s extrema — the
scan of `grid2` never happens and the cache is left untouched. -/
theorem c4_minmax_cache_stale (g1 g2 : GridData) (h0 h : ℝ) :
    (getColor g2 ((getColor g1 initialColorCache h0).2) h).1
      = colorLadder ((h - (scanMinMax g1).1) /
          ((scanMinMax g1).2 - (scanMinMax g1).1)) ∧
    (getColor g2 ((getColor g1 initialColorCache h0).2) h).2
      = ⟨(scanMinMax g1).1, (scanMinMax g1).2, true⟩ := by
  constructor <;> simp [getColor, initialColorCache]

/-- A helper shared by C5 and C3: `generateTerrain` begins with
`InitGauss(seed)`, so its result does not depend on the engine state the
terrain object held before the call. -/
theorem generateTerrain_reseeds (go : ℤ → ℕ → ℝ) (n : ℕ) (Dv : ℝ) (seed : ℤ)
    (sigma : ℝ) (st1 st2 : GaussState) (g0 : Grid) :
    generateTerrain go n Dv seed sigma st1 g0
      = generateTerrain go n Dv seed sigma st2 g0 := rfl

/-- C5: the terrain is a function of `(n, D, seed, sigma)` alone (given the
fixed seeded-Gaussian library semantics `go`): whatever engine state two
invocations start from, they produce the same height grid; for `n = 2` the
grid side is `2^2 + 1 = 5`, and the scenario `(n=2, D=2.5, seed=42,
sigma=1.0)` reproduces every height value on a second run. -/
theorem c5_terrain_deterministic :
    (∀ (go : ℤ → ℕ → ℝ) (n : ℕ) (Dv : ℝ) (seed : ℤ) (sigma : ℝ)
       (st1 st2 : GaussState),
        Terrain.make go n Dv seed sigma st1 = Terrain.make go n Dv seed sigma st2)
    ∧ gridSize 2 = 5
    ∧ (∀ (go : ℤ → ℕ → ℝ) (st1 st2 : GaussState) (x y : ℕ),
        Terrain.make go 2 (5/2) 42 1 st1 x y = Terrain.make go 2 (5/2) 42 1 st2 x y) :=
  ⟨fun go n Dv seed sigma st1 st2 =>
      congrArg Prod.fst (generateTerrain_reseeds go n Dv seed sigma st1 st2 _),
   rfl,
   fun go st1 st2 x y =>
      congrFun (congrFun (congrArg Prod.fst
        (generateTerrain_reseeds go 2 (5/2) 42 1 st1 st2 _)) x) y⟩

/-- C3 counterexample: the transport generators' engines are seeded from
hardware entropy (`gen(rd())`), which is not a caller parameter — two runs
with identical caller-supplied parameters but different entropy words hold
different engine states from the very first state word, so the caller cannot
force two invocations to produce identical output. -/
theorem c3_counterexample :
    dynamicEngineState 0 0 ≠ dynamicEngineState 1 0 ∧
    staticEngineState 0 0 ≠ staticEngineState 1 0 := by
  constructor <;> decide

/-- C3 amended: only the fractal terrain synthesizer supports explicit
seeding — its engine state is reset from the caller's `seed` and its output
is independent of any pre-existing engine state — while the static and
dynamic transport generators seed from `std::random_device`, so their engine
states differ across runs the caller cannot distinguish by parameters. -/
theorem c3_explicit_seeding :
    (∀ (go : ℤ → ℕ → ℝ) (n : ℕ) (Dv : ℝ) (seed : ℤ) (sigma : ℝ)
       (st1 st2 : GaussState) (g0 : Grid),
        generateTerrain go n Dv seed sigma st1 g0
          = generateTerrain go n Dv seed sigma st2 g0)
    ∧ (∀ seed : ℕ, terrainEngineState seed 0 = seed % 2 ^ 32)
    ∧ dynamicEngineState 0 0 ≠ dynamicEngineState 1 0
    ∧ staticEngineState 0 0 ≠ staticEngineState 1 0 := by
  refine ⟨generateTerrain_reseeds, fun seed => rfl, ?_, ?_⟩ <;> decide

/-- C2 counterexample: the track generator's renormalization step
(`dir += perturb; dir /= length`) applied where the perturbation exactly
cancels the direction.  The code has no guard: the result is the zero vector
— not the unchanged previous direction `(1,0,0)` and not a unit default axis
(its squared length is `0`, not `1`). -/
theorem c2_counterexample :
    normalize3 (vadd ((1:ℝ), (0:ℝ), (0:ℝ)) (-1, 0, 0)) = ((0, 0, 0) : V3) ∧
    ((0, 0, 0) : V3) ≠ ((1, 0, 0) : V3) ∧
    sumSq (normalize3 (vadd ((1:ℝ), (0:ℝ), (0:ℝ)) (-1, 0, 0))) ≠ 1 := by
  have hv : vadd ((1:ℝ), (0:ℝ), (0:ℝ)) (-1, 0, 0) = ((0, 0, 0) : V3) := by
    simp [vadd]
  have hz : normalize3 ((0, 0, 0) : V3) = ((0, 0, 0) : V3) := by
    simp [normalize3, vlen, sumSq]
  refine ⟨by rw [hv, hz], ?_, ?_⟩
  · intro h
    exact zero_ne_one (congrArg Prod.fst h)
  · rw [hv, hz]
    simp [sumSq]

/-- Normalizing a vector of positive squared length yields a unit vector. -/
theorem sumSq_normalize3 (v : V3) (h : 0 < sumSq v) : sumSq (normalize3 v) = 1 := by
  have hL : vlen v * vlen v = sumSq v := Real.mul_self_sqrt h.le
  have hsq : ∀ a : ℝ, a / vlen v * (a / vlen v) = a * a / (vlen v * vlen v) :=
    fun a => by ring
  simp only [normalize3, sumSq] at h ⊢
  rw [hsq, hsq, hsq, div_add_div_same, div_add_div_same, hL]
  exact div_self h.ne'

/-- C2 amended: the code performs the division unconditionally, but the
dangerous case is unreachable in a generated track: a unit direction
perturbed componentwise by at most `CURVATURE_FACTOR = 0.4` (the initial
perturbation is even smaller, `±0.25`) always has positive squared length, so
the renormalization is well defined and returns an exactly unit direction —
no degenerate value propagates to the emitted points. -/
theorem c2_renormalization_never_degenerate (d1 d2 d3 p1 p2 p3 : ℝ)
    (hunit : d1 * d1 + d2 * d2 + d3 * d3 = 1)
    (h1 : |p1| ≤ 2/5) (h2 : |p2| ≤ 2/5) (h3 : |p3| ≤ 2/5) :
    0 < sumSq (vadd (d1, d2, d3) (p1, p2, p3)) ∧
    sumSq (normalize3 (vadd (d1, d2, d3) (p1, p2, p3))) = 1 := by
  have hb1 := abs_le.mp h1
  have hb2 := abs_le.mp h2
  have hb3 := abs_le.mp h3
  have hpos : 0 < sumSq (vadd (d1, d2, d3) (p1, p2, p3)) := by
    simp only [vadd, sumSq]
    rcases lt_or_eq_of_le (add_nonneg (add_nonneg (mul_self_nonneg (d1 + p1))
        (mul_self_nonneg (d2 + p2))) (mul_self_nonneg (d3 + p3))) with hlt | heq
    · exact hlt
    · exfalso
      have e1 : d1 + p1 = 0 := by nlinarith [sq_nonneg (d1 + p1), sq_nonneg (d2 + p2), sq_nonneg (d3 + p3)]
      have e2 : d2 + p2 = 0 := by nlinarith [sq_nonneg (d1 + p1), sq_nonneg (d2 + p2), sq_nonneg (d3 + p3)]
      have e3 : d3 + p3 = 0 := by nlinarith [sq_nonneg (d1 + p1), sq_nonneg (d2 + p2), sq_nonneg (d3 + p3)]
      nlinarith [hunit, e1, e2, e3]
  exact ⟨hpos, sumSq_normalize3 _ hpos⟩

/-- Numeric helper: the unperturbed axis direction is unit length. -/
theorem axis_unit : (1:ℝ) * 1 + 0 * 0 + 0 * 0 = 1 := by norm_num

/-- Numeric helper: a zero perturbation component is within the curvature
bound. -/
theorem zero_within_curvature : |(0:ℝ)| ≤ 2/5 := by norm_num

/-- C2 amended witness: the unit x-axis direction with zero perturbation
renormalizes to a unit direction. -/
theorem c2_renormalization_never_degenerate_witness :
    0 < sumSq (vadd ((1:ℝ), (0:ℝ), (0:ℝ)) (0, 0, 0)) ∧
    sumSq (normalize3 (vadd ((1:ℝ), (0:ℝ), (0:ℝ)) (0, 0, 0))) = 1 :=
  c2_renormalization_never_degenerate 1 0 0 0 0 0 axis_unit
    zero_within_curvature zero_within_curvature zero_within_curvature

/-- With exponent 1 the sign-preserving power is the identity. -/
theorem powTerm_one (c : ℝ) : powTerm c 1 = c := by
  unfold powTerm
  rw [Real.rpow_one]
  rcases le_or_lt 0 c with h | h
  · rw [if_pos h, one_mul, abs_of_nonneg h]
  · rw [if_neg (not_le.mpr h), abs_of_neg h]
    ring

/-- The round-sphere parametric identity behind C9. -/
theorem sphere_parametric_round (r θ φ : ℝ) :
    r * Real.cos θ * Real.cos φ * (r * Real.cos θ * Real.cos φ)
      + r * Real.sin θ * Real.cos φ * (r * Real.sin θ * Real.cos φ)
      + r * Real.sin φ * (r * Real.sin φ) = r ^ 2 := by
  linear_combination r ^ 2 * Real.cos φ ^ 2 * Real.sin_sq_add_cos_sq θ
    + r ^ 2 * Real.sin_sq_add_cos_sq φ

/-- With both exponents 1 every sphere surface point lies on the sphere. -/
theorem spherePoint_unit_exponents (r pm pM tm : ℝ) (nd ui vi : ℕ) :
    sumSq (spherePoint r 1 1 pm pM tm nd ui vi) = r ^ 2 := by
  simp only [spherePoint, sumSq, powTerm_one]
  exact sphere_parametric_round r _ _

/-- C9: for every valid sphere parameter set with `north = east = 1`, every
grid point the evaluator produces satisfies `x² + y² + z² = radius²` exactly
(in real arithmetic): the superquadric degenerates to the round sphere. -/
theorem c9_unit_exponents_round_sphere (radius zmin zmax thetamax : ℚ)
    (nd ui vi : ℕ) (hrad : 0 < radius) (hz : zmin ≤ zmax) (hzne : zmin ≠ zmax)
    (hth : 0 < thetamax) (hth2 : thetamax ≤ 360) (hui : ui ≤ nd) (hvi : vi ≤ nd) :
    sumSq (sqsphereGridPoint radius 1 1 zmin zmax thetamax nd ui vi)
      = ((radius : ℝ)) ^ 2 := by
  simp only [sqsphereGridPoint, Rat.cast_one]
  exact spherePoint_unit_exponents _ _ _ _ _ _ _

/-- Numeric helper: the witness radius is positive. -/
theorem rat_two_pos : (0:ℚ) < 2 := by norm_num

/-- Numeric helper: the witness z-range is ordered. -/
theorem rat_neg_two_le_two : (-2:ℚ) ≤ 2 := by norm_num

/-- Numeric helper: the witness z-range is non-degenerate. -/
theorem rat_neg_two_ne_two : (-2:ℚ) ≠ 2 := by norm_num

/-- Numeric helper: the witness sweep angle is positive. -/
theorem rat_360_pos : (0:ℚ) < 360 := by norm_num

/-- C9 witness: the full sphere of radius 2 at `divisions = 4`, grid point
`(ui = 0, vi = 2)` (the end-to-end scenario's equator point), lies on the
radius-2 sphere. -/
theorem c9_unit_exponents_round_sphere_witness :
    sumSq (sqsphereGridPoint 2 1 1 (-2) 2 360 4 0 2) = (((2:ℚ) : ℝ)) ^ 2 :=
  c9_unit_exponents_round_sphere 2 (-2) 2 360 4 0 2 rat_two_pos
    rat_neg_two_le_two rat_neg_two_ne_two rat_360_pos (le_refl 360)
    (Nat.zero_le 4) (by decide)

/-- Every point generated after a dead predecessor is inactive. -/
theorem genFrom_dead_all (u : ℕ → ℚ) (m : ℕ) :
    ∀ (k : ℕ) (pos dir : V3) (j : ℕ),
      ((genFrom u m k pos dir false).getD j inactivePoint).active = false := by
  induction m with
  | zero => intro k pos dir j; simp [genFrom, inactivePoint]
  | succ m ih =>
    intro k pos dir j
    simp only [genFrom, if_pos rfl]
    cases j with
    | zero => simp [inactivePoint]
    | succ j => simpa using ih k pos dir j

/-- Every point of the post-absorption fill is inactive. -/
theorem replicate_inactive (m j : ℕ) :
    ((List.replicate m inactivePoint).getD j inactivePoint).active = false := by
  induction m generalizing j with
  | zero => simp [inactivePoint]
  | succ m ih =>
    cases j with
    | zero => simp [List.replicate, inactivePoint]
    | succ j => simpa [List.replicate] using ih j

/-- The length of the generated tail equals the requested point count. -/
theorem genFrom_length (u : ℕ → ℚ) (m : ℕ) :
    ∀ (k : ℕ) (pos dir : V3) (b : Bool), (genFrom u m k pos dir b).length = m := by
  induction m with
  | zero => intro k pos dir b; simp [genFrom]
  | succ m ih =>
    intro k pos dir b
    by_cases hb : b = false
    · simp [genFrom, hb, ih]
    · simp only [genFrom, if_neg hb]
      by_cases habs : u (k+3) < regionAbsorption (vlen
          (pos.1 + (normalize3 (vadd dir (perturb u k))).1 * (step_length : ℝ),
           pos.2.1 + (normalize3 (vadd dir (perturb u k))).2.1 * (step_length : ℝ),
           pos.2.2 + (normalize3 (vadd dir (perturb u k))).2.2 * (step_length : ℝ)))
      · simp [habs]
      · simp [habs, ih]

/-- Inactivity propagates to all later indices in the generated tail. -/
theorem genFrom_inactive_upward (u : ℕ → ℚ) (m : ℕ) :
    ∀ (k : ℕ) (pos dir : V3) (b : Bool) (i j : ℕ), i ≤ j →
      ((genFrom u m k pos dir b).getD i inactivePoint).active = false →
      ((genFrom u m k pos dir b).getD j inactivePoint).active = false := by
  induction m with
  | zero => intro k pos dir b i j _ _; simp [genFrom, inactivePoint]
  | succ m ih =>
    intro k pos dir b i j hij hi
    by_cases hb : b = false
    · rw [hb]
      exact genFrom_dead_all u (m+1) k pos dir j
    · simp only [genFrom, if_neg hb] at hi ⊢
      by_cases habs : u (k+3) < regionAbsorption (vlen
          (pos.1 + (normalize3 (vadd dir (perturb u k))).1 * (step_length : ℝ),
           pos.2.1 + (normalize3 (vadd dir (perturb u k))).2.1 * (step_length : ℝ),
           pos.2.2 + (normalize3 (vadd dir (perturb u k))).2.2 * (step_length : ℝ)))
      · simp only [if_pos habs] at hi ⊢
        cases j with
        | zero =>
          interval_cases i
          simp at hi
        | succ j =>
          simpa using replicate_inactive m j
      · simp only [if_neg habs] at hi ⊢
        cases i with
        | zero => simp at hi
        | succ i =>
          cases j with
          | zero => omega
          | succ j =>
            simp only [List.getD_cons_succ] at hi ⊢
            exact ih _ _ _ true i j (by omega) hi

/-- The generated track always has exactly `POINTS_PER_TRACK = 20` points. -/
theorem generate_length (u : ℕ → ℚ) : (generate u).length = 20 := by
  simp [generate, genFrom_length, POINTS_PER_TRACK]

/-- C10: after `NeutronTrack::generate`, the first point is active and the
active points form a contiguous prefix: inactivity at an index forces
inactivity at every larger index, so rendered segments are unbroken polylines
from the source. -/
theorem c10_track_contiguous_active (u : ℕ → ℚ) :
    ((generate u).getD 0 inactivePoint).active = true ∧
    ∀ i j : ℕ, i ≤ j →
      ((generate u).getD i inactivePoint).active = false →
      ((generate u).getD j inactivePoint).active = false := by
  constructor
  · simp [generate]
  · intro i j hij hi
    simp only [generate] at hi ⊢
    cases i with
    | zero => simp at hi
    | succ i =>
      cases j with
      | zero => omega
      | succ j =>
        simp only [List.getD_cons_succ] at hi ⊢
        exact genFrom_inactive_upward u (POINTS_PER_TRACK - 1) _ _ _ true i j
          (by omega) hi

/-- Helper for the C10 witness: index 20 is past the end of the 20-point
track, where `getD` returns the inactive default. -/
theorem c10_past_end :
    ((generate (fun _ => 0)).getD 20 inactivePoint).active = false := by
  have h : (generate (fun _ => 0)).length ≤ 20 := by rw [generate_length]
  rw [List.getD_eq_default _ _ h]
  rfl

/-- C10 witness: on the all-zeros draw stream the prefix theorem applies at
indices 20 ≤ 21 (both past the end, hence inactive). -/
theorem c10_track_contiguous_active_witness :
    ((generate (fun _ => 0)).getD 0 inactivePoint).active = true ∧
    ((generate (fun _ => 0)).getD 21 inactivePoint).active = false :=
  ⟨(c10_track_contiguous_active (fun _ => 0)).1,
   (c10_track_contiguous_active (fun _ => 0)).2 20 21 (Nat.le_succ 20) c10_past_end⟩

/-- The movement tail always stores the advanced position, whether or not
the neutron then escapes. -/
theorem moveNeutron_position (dt : ℝ) (m : Neutron) :
    (moveNeutron dt m).position = movedPos dt m := by
  unfold moveNeutron
  split_ifs <;> rfl

/-- The movement tail never touches lifetime. -/
theorem moveNeutron_lifetime (dt : ℝ) (m : Neutron) :
    (moveNeutron dt m).lifetime = m.lifetime := by
  unfold moveNeutron
  split_ifs <;> rfl

/-- If the movement tail leaves the neutron inactive, either the advanced
position exceeds `max_distance` or the neutron was already inactive. -/
theorem moveNeutron_inactive_cases (dt : ℝ) (m : Neutron)
    (h : (moveNeutron dt m).active = false) :
    (max_distance : ℝ) < vlen (movedPos dt m) ∨ m.active = false := by
  unfold moveNeutron at h
  split_ifs at h with hd
  · exact Or.inl hd
  · exact Or.inr h

/-- A pushed fission event is always in the resulting deque (the eviction
only ever removes the oldest element of a full 21-element deque). -/
theorem pushEvent_mem (events : List FissionEvent) (e : FissionEvent) :
    e ∈ pushEvent events e := by
  simp only [pushEvent]
  split_ifs with h
  · cases events with
    | nil => simp at h
    | cons a es => simp
  · simp

/-- Shared branch computation: under an interaction draw that selects the
scatter outcome, `Neutron::update` redraws direction and group and then
falls through to the movement tail. -/
theorem updateNeutron_scatter (dt simT : ℝ) (n : Neutron)
    (events : List FissionEvent) (u : ℕ → ℚ) (k : ℕ)
    (ha : n.active = true)
    (hlt : ¬ ((max_lifetime : ℝ) < n.lifetime + dt))
    (hint : (u k : ℝ) < interactionProbability n.energy_group dt)
    (hsc : u (k+1) < 1 - absorption_probability - fission_probability) :
    updateNeutron dt simT n events u k =
      ⟨moveNeutron dt { n with lifetime := n.lifetime + dt,
                               velocity := randomDirection u (k+2),
                               energy_group := selectGroup n.energy_group (u (k+4)) },
       events, none⟩ := by
  unfold updateNeutron
  rw [if_neg (by simp [ha]), if_neg hlt, if_pos hint, if_pos hsc]

/-- Shared branch computation: an absorption or fission outcome keeps the
position unchanged (the update returns before the movement tail). -/
theorem updateNeutron_absorb_fission (dt simT : ℝ) (n : Neutron)
    (events : List FissionEvent) (u : ℕ → ℚ) (k : ℕ)
    (ha : n.active = true)
    (hlt : ¬ ((max_lifetime : ℝ) < n.lifetime + dt))
    (hint : (u k : ℝ) < interactionProbability n.energy_group dt)
    (habs : 1 - absorption_probability - fission_probability ≤ u (k+1)) :
    (updateNeutron dt simT n events u k).neutron.position = n.position ∧
    (updateNeutron dt simT n events u k).neutron.active = false := by
  unfold updateNeutron
  rw [if_neg (by simp [ha]), if_neg hlt, if_pos hint, if_neg (not_lt.mpr habs)]
  split_ifs <;> exact ⟨rfl, rfl⟩

/-- C1 amended: under an interaction draw, the position is left unchanged
only in the absorption and fission outcomes; in the scatter outcome the
update does not return early — the position advances by the freshly drawn
direction times the (new-group) speed times `dt`. -/
theorem c1_interaction_advance (dt simT : ℝ) (n : Neutron)
    (events : List FissionEvent) (u : ℕ → ℚ) (k : ℕ)
    (ha : n.active = true)
    (hlt : ¬ ((max_lifetime : ℝ) < n.lifetime + dt))
    (hint : (u k : ℝ) < interactionProbability n.energy_group dt) :
    (1 - absorption_probability - fission_probability ≤ u (k+1) →
      (updateNeutron dt simT n events u k).neutron.position = n.position)
    ∧ (u (k+1) < 1 - absorption_probability - fission_probability →
      (updateNeutron dt simT n events u k).neutron.position
        = movedPos dt { n with lifetime := n.lifetime + dt,
                               velocity := randomDirection u (k+2),
                               energy_group := selectGroup n.energy_group (u (k+4)) }) := by
  constructor
  · intro habs
    exact (updateNeutron_absorb_fission dt simT n events u k ha hlt hint habs).1
  · intro hsc
    rw [updateNeutron_scatter dt simT n events u k ha hlt hint hsc]
    exact moveNeutron_position dt _

/-- Numeric helper: with `dt = timestep = 0.5` a fresh neutron's lifetime
stays far below `max_lifetime`. -/
theorem c1_lifetime_ok :
    ¬ ((max_lifetime : ℝ) < (0 : ℝ) + ((timestep : ℚ) : ℝ)) := by
  norm_num [max_lifetime, timestep]

/-- Numeric helper: a zero interaction draw always succeeds, because the
fast-group interaction probability `1 - exp(-0.5/4)` is positive. -/
theorem c1_interaction_hit :
    (((0 : ℚ) : ℝ)) < interactionProbability 0 ((timestep : ℚ) : ℝ) := by
  unfold interactionProbability
  have h4 : ((meanFreePathEnergy 0 : ℚ) : ℝ) = 4 := by
    norm_num [meanFreePathEnergy, mean_free_path, GROUP_ENERGIES]
  rw [h4]
  have hlt : Real.exp (-((timestep : ℚ) : ℝ) / 4) < 1 := by
    rw [Real.exp_lt_one_iff]
    norm_num [timestep]
  push_cast
  linarith

/-- Numeric helper: a zero outcome draw lands in the scatter band. -/
theorem c1_scatter_band :
    (0 : ℚ) < 1 - absorption_probability - fission_probability := by
  norm_num [absorption_probability, fission_probability]

/-- C1 witness: a fresh fast neutron at the origin with the all-zeros draw
stream undergoes a scattering interaction, and its position is advanced in
that very step (by the new direction at the new group's speed). -/
theorem c1_interaction_advance_witness :
    (updateNeutron ((timestep : ℚ) : ℝ) 0
        ⟨(0,0,0), (0,0,0), 0, 0, true⟩ [] (fun _ => 0) 0).neutron.position
      = movedPos ((timestep : ℚ) : ℝ)
          { position := ((0,0,0) : V3), velocity := randomDirection (fun _ => 0) 2,
            energy_group := selectGroup 0 ((0:ℚ)), lifetime := (0:ℝ) + ((timestep : ℚ) : ℝ),
            active := true } :=
  (c1_interaction_advance ((timestep : ℚ) : ℝ) 0 ⟨(0,0,0), (0,0,0), 0, 0, true⟩ []
    (fun _ => 0) 0 rfl c1_lifetime_ok c1_interaction_hit).2 c1_scatter_band

/-- The scatter step of the counterexample selects the fast group again. -/
theorem selectGroup_zero_zero : selectGroup 0 0 = 0 := by
  norm_num [selectGroup, SCATTERING_PROBABILITIES]

/-- C1 counterexample: the claim says a step with a successful interaction
draw never advances the position.  On the all-zeros draw stream a fresh
neutron at the origin draws an interaction (draw `0 < 1 - exp(-0.5/4)`), the
outcome draw selects scattering (`0 < 0.75`), and yet the updated position is
`(0, 0, -√10) ≠ (0, 0, 0)`: the scatter branch falls through to the movement
code. -/
theorem c1_counterexample :
    (((0 : ℚ) : ℝ)) < interactionProbability 0 ((timestep : ℚ) : ℝ) ∧
    (0 : ℚ) < 1 - absorption_probability - fission_probability ∧
    (updateNeutron ((timestep : ℚ) : ℝ) 0
        ⟨(0,0,0), (0,0,0), 0, 0, true⟩ [] (fun _ => 0) 0).neutron.position
      ≠ (((0,0,0) : V3)) := by
  refine ⟨c1_interaction_hit, c1_scatter_band, ?_⟩
  have hstep := updateNeutron_scatter ((timestep : ℚ) : ℝ) 0
    ⟨(0,0,0), (0,0,0), 0, 0, true⟩ [] (fun _ => 0) 0 rfl c1_lifetime_ok
    c1_interaction_hit c1_scatter_band
  have hz : (updateNeutron ((timestep : ℚ) : ℝ) 0
      ⟨(0,0,0), (0,0,0), 0, 0, true⟩ [] (fun _ => 0) 0).neutron.position.2.2
      = -(Real.sqrt 10) := by
    rw [hstep]
    show (moveNeutron _ _).position.2.2 = _
    rw [moveNeutron_position]
    show (0 : ℝ) + (randomDirection (fun _ => 0) 2).2.2
        * speed (selectGroup 0 0) * ((timestep : ℚ) : ℝ) = -(Real.sqrt 10)
    rw [selectGroup_zero_zero]
    show (0 : ℝ) + (2 * ((0:ℚ) : ℝ) - 1) * speed 0 * ((timestep : ℚ) : ℝ)
        = -(Real.sqrt 10)
    have hs : speed 0 = Real.sqrt 10 * 2 := by
      norm_num [speed, GROUP_ENERGIES]
    rw [hs]
    push_cast [timestep]
    ring
  intro h
  rw [h] at hz
  simp at hz

/-- C6 amended: whenever the per-step update deactivates an active neutron,
one of the four causes holds of that very step: the accumulated lifetime
exceeds `max_lifetime`, the advanced position exceeds `max_distance`, a
fission event at the neutron's position is recorded in the returned deque, or
the draws selected the absorption band.  (As stated over all *inactive*
neutrons the claim fails — see the counterexample — because pool slots start
inactive with no cause.) -/
theorem c6_deactivation_has_cause (dt simT : ℝ) (n : Neutron)
    (events : List FissionEvent) (u : ℕ → ℚ) (k : ℕ)
    (ha : n.active = true)
    (hd : (updateNeutron dt simT n events u k).neutron.active = false) :
    ((max_lifetime : ℝ) < (updateNeutron dt simT n events u k).neutron.lifetime)
    ∨ ((max_distance : ℝ) < vlen ((updateNeutron dt simT n events u k).neutron.position))
    ∨ ((⟨n.position, simT⟩ : FissionEvent) ∈ (updateNeutron dt simT n events u k).events)
    ∨ ((u k : ℝ) < interactionProbability n.energy_group dt
        ∧ 1 - absorption_probability - fission_probability ≤ u (k+1)
        ∧ u (k+1) < 1 - fission_probability) := by
  unfold updateNeutron at hd ⊢
  rw [if_neg (by simp [ha] : ¬ (n.active = false))] at hd ⊢
  split_ifs at hd ⊢ with h1 h2 h3 h4 h5
  · exact Or.inl h1
  · rcases moveNeutron_inactive_cases dt _ hd with hc | hc
    · refine Or.inr (Or.inl ?_)
      rw [moveNeutron_position]
      exact hc
    · simp [ha] at hc
  · exact Or.inr (Or.inr (Or.inr ⟨h2, not_lt.mp h3, h4⟩))
  · exact Or.inr (Or.inr (Or.inl (pushEvent_mem events ⟨n.position, simT⟩)))
  · exact Or.inr (Or.inr (Or.inl (pushEvent_mem events ⟨n.position, simT⟩)))
  · rcases moveNeutron_inactive_cases dt _ hd with hc | hc
    · refine Or.inr (Or.inl ?_)
      rw [moveNeutron_position]
      exact hc
    · simp [ha] at hc

/-- Numeric helper: lifetime 100 plus one timestep exceeds `max_lifetime`. -/
theorem c6_lifetime_exceeded :
    (max_lifetime : ℝ) < (100 : ℝ) + ((timestep : ℚ) : ℝ) := by
  norm_num [max_lifetime, timestep]

/-- Helper for the C6 witness: a neutron whose lifetime is already at the
cap is deactivated by the update. -/
theorem c6_witness_deactivated :
    (updateNeutron ((timestep : ℚ) : ℝ) 0
        ⟨(0,0,0), (0,0,0), 0, 100, true⟩ [] (fun _ => 0) 0).neutron.active = false := by
  unfold updateNeutron
  rw [if_neg (by simp : ¬ ((⟨(0,0,0), (0,0,0), 0, 100, true⟩ : Neutron).active = false)),
    if_pos c6_lifetime_exceeded]

/-- C6 amended witness: the update deactivating a lifetime-100 neutron
exhibits a cause from the list. -/
theorem c6_deactivation_has_cause_witness :
    ((max_lifetime : ℝ) < (updateNeutron ((timestep : ℚ) : ℝ) 0
        ⟨(0,0,0), (0,0,0), 0, 100, true⟩ [] (fun _ => 0) 0).neutron.lifetime)
    ∨ ((max_distance : ℝ) < vlen ((updateNeutron ((timestep : ℚ) : ℝ) 0
        ⟨(0,0,0), (0,0,0), 0, 100, true⟩ [] (fun _ => 0) 0).neutron.position))
    ∨ ((⟨(0,0,0), 0⟩ : FissionEvent) ∈ (updateNeutron ((timestep : ℚ) : ℝ) 0
        ⟨(0,0,0), (0,0,0), 0, 100, true⟩ [] (fun _ => 0) 0).events)
    ∨ ((((0:ℚ) : ℝ)) < interactionProbability 0 ((timestep : ℚ) : ℝ)
        ∧ 1 - absorption_probability - fission_probability ≤ (0:ℚ)
        ∧ (0:ℚ) < 1 - fission_probability) :=
  c6_deactivation_has_cause ((timestep : ℚ) : ℝ) 0
    ⟨(0,0,0), (0,0,0), 0, 100, true⟩ [] (fun _ => 0) 0 rfl c6_witness_deactivated

/-- C6 counterexample: in the freshly constructed simulation, pool slot 249
(beyond the initialized first third) is inactive at lifetime 0 and distance 0
with an empty fission-event deque — an inactive neutron none of whose listed
causes holds, so the claim quantified over every inactive neutron is false. -/
theorem c6_counterexample :
    ((mkSimulation (fun _ => 0)).pool.getD 249 defaultNeutron).active = false ∧
    ¬ ((max_lifetime : ℝ)
        < ((mkSimulation (fun _ => 0)).pool.getD 249 defaultNeutron).lifetime) ∧
    ¬ ((max_distance : ℝ)
        < vlen ((mkSimulation (fun _ => 0)).pool.getD 249 defaultNeutron).position) ∧
    (mkSimulation (fun _ => 0)).events = [] := by
  have hp : (mkSimulation (fun _ => 0)).pool.getD 249 defaultNeutron = defaultNeutron := by
    show (mkPool (fun _ => 0)).getD 249 defaultNeutron = defaultNeutron
    unfold mkPool num_neutrons
    rw [List.getD_eq_getElem?_getD]
    simp only [List.getElem?_map, List.getElem?_range]
    norm_num
  rw [hp]
  have hv : vlen defaultNeutron.position = 0 := by
    simp [defaultNeutron, vlen, sumSq]
  refine ⟨rfl, ?_, ?_, rfl⟩
  · show ¬ ((max_lifetime : ℝ) < (0 : ℝ))
    norm_num [max_lifetime]
  · rw [hv]
    norm_num [max_distance]

end Claims

end Portfolio
